import Mathlib

/-!
Verification of the pathfinder JSON-RPC dispatcher core.

The definitions below are a shallow embedding of the Rust sources:
  crates/rpc/src/error.rs            (domain error taxonomy, stable codes)
  crates/rpc/src/jsonrpc/error.rs    (JSON-RPC error object, code/message, bridge)
  crates/rpc/src/versioning.rs       (path table, method-name rewriting, dispatch)
  crates/rpc/src/jsonrpc/router.rs   (request running, batch handling, adapters)

Rust machine strings are modelled as Lean `String`; `anyhow::Error` and
`StarknetError` are modelled by their display text (`String`), which is the
only observable the embedded code uses. Types whose definitions live in files
not present here (request.rs, response.rs) are modelled from the spec and say
so in their doc comment.
-/

namespace Pathfinder

namespace Error

/-- Embeds `TraceError` of crates/rpc/src/error.rs. -/
inductive TraceError
  | Received
  | Rejected
deriving DecidableEq

/-- Embeds the domain error enum `RpcError` of crates/rpc/src/error.rs.
`GatewayError` carries the display text of the wrapped `StarknetError`;
`Internal` carries the display text of the wrapped `anyhow::Error`. -/
inductive RpcError
  | FailedToReceiveTxn
  | ContractNotFound
  | BlockNotFound
  | TxnHashNotFoundV03
  | InvalidTxnIndex
  | InvalidTxnHash
  | InvalidBlockHash
  | ClassHashNotFound
  | TxnHashNotFoundV04
  | PageSizeTooBig
  | NoBlocks
  | NoTraceAvailable (t : TraceError)
  | InvalidContinuationToken
  | TooManyKeysInFilter (limit requested : Nat)
  | ContractError
  | InvalidContractClass
  | ClassAlreadyDeclared
  | InvalidTransactionNonce
  | InsufficientMaxFee
  | InsufficientAccountBalance
  | ValidationFailure
  | CompilationFailed
  | ContractClassSizeIsTooLarge
  | NonAccount
  | DuplicateTransaction
  | CompiledClassHashMismatch
  | UnsupportedTxVersion
  | UnsupportedContractClassVersion
  | UnexpectedError (data : String)
  | ProofLimitExceeded (limit requested : Nat)
  | GatewayError (e : String)
  | Internal (e : String)
deriving DecidableEq

/-- Embeds `RpcError::code` of crates/rpc/src/error.rs. -/
def RpcError.code : RpcError → Int
  | .FailedToReceiveTxn => 1
  | .NoTraceAvailable _ => 10
  | .ContractNotFound => 20
  | .BlockNotFound => 24
  | .TxnHashNotFoundV03 => 25
  | .InvalidTxnHash => 25
  | .InvalidBlockHash => 26
  | .InvalidTxnIndex => 27
  | .ClassHashNotFound => 28
  | .TxnHashNotFoundV04 => 29
  | .PageSizeTooBig => 31
  | .NoBlocks => 32
  | .InvalidContinuationToken => 33
  | .TooManyKeysInFilter _ _ => 34
  | .ContractError => 40
  | .InvalidContractClass => 50
  | .ClassAlreadyDeclared => 51
  | .InvalidTransactionNonce => 52
  | .InsufficientMaxFee => 53
  | .InsufficientAccountBalance => 54
  | .ValidationFailure => 55
  | .CompilationFailed => 56
  | .ContractClassSizeIsTooLarge => 57
  | .NonAccount => 58
  | .DuplicateTransaction => 59
  | .CompiledClassHashMismatch => 60
  | .UnsupportedTxVersion => 61
  | .UnsupportedContractClassVersion => 62
  | .UnexpectedError _ => 63
  | .ProofLimitExceeded _ _ => 10000
  | .GatewayError _ => -32603
  | .Internal _ => -32603

/-- Embeds the `thiserror` display strings of crates/rpc/src/error.rs.
The two transparent variants display their wrapped error's text. -/
def RpcError.display : RpcError → String
  | .FailedToReceiveTxn => "Failed to write transaction"
  | .ContractNotFound => "Contract not found"
  | .BlockNotFound => "Block not found"
  | .TxnHashNotFoundV03 => "Transaction hash not found"
  | .InvalidTxnIndex => "Invalid transaction index in a block"
  | .InvalidTxnHash => "Invalid transaction hash"
  | .InvalidBlockHash => "Invalid block hash"
  | .ClassHashNotFound => "Class hash not found"
  | .TxnHashNotFoundV04 => "Transaction hash not found"
  | .PageSizeTooBig => "Requested page size is too big"
  | .NoBlocks => "There are no blocks"
  | .NoTraceAvailable _ => "No trace available"
  | .InvalidContinuationToken => "The supplied continuation token is invalid or unknown"
  | .TooManyKeysInFilter _ _ => "Too many keys provided in a filter"
  | .ContractError => "Contract error"
  | .InvalidContractClass => "Invalid contract class"
  | .ClassAlreadyDeclared => "Class already declared"
  | .InvalidTransactionNonce => "Invalid transaction nonce"
  | .InsufficientMaxFee =>
      "Max fee is smaller than the minimal transaction cost (validation plus fee transfer)"
  | .InsufficientAccountBalance => "Account balance is smaller than the transaction's max_fee"
  | .ValidationFailure => "Account validation failed"
  | .CompilationFailed => "Compilation failed"
  | .ContractClassSizeIsTooLarge => "Contract class size it too large"
  | .NonAccount => "Sender address in not an account contract"
  | .DuplicateTransaction => "A transaction with the same hash already exists in the mempool"
  | .CompiledClassHashMismatch =>
      "The compiled class hash did not match the one supplied in the transaction"
  | .UnsupportedTxVersion => "The transaction version is not supported"
  | .UnsupportedContractClassVersion => "The contract class version is not supported"
  | .UnexpectedError _ => "An unexpected error occurred"
  | .ProofLimitExceeded _ _ => "Too many storage keys requested"
  | .GatewayError e => e
  | .Internal e => e

end Error

namespace Jsonrpc

/-- Embeds `RpcError` of crates/rpc/src/jsonrpc/error.rs. `InternalError`
carries the display text of the wrapped `anyhow::Error`. -/
inductive RpcError
  | ParseError
  | InvalidRequest
  | MethodNotFound
  | InvalidParams
  | InternalError (e : String)
  | ApplicationError (code : Int) (message : String)
deriving DecidableEq

/-- Embeds `RpcError::code` of crates/rpc/src/jsonrpc/error.rs. -/
def RpcError.code : RpcError → Int
  | .ParseError => -32700
  | .InvalidRequest => -32600
  | .MethodNotFound => -32601
  | .InvalidParams => -32602
  | .InternalError _ => -32603
  | .ApplicationError c _ => c

/-- Embeds `RpcError::message` of crates/rpc/src/jsonrpc/error.rs. Note the
source returns the wrapped error's own text for `InternalError`. -/
def RpcError.message : RpcError → String
  | .ParseError => "Parse error"
  | .InvalidRequest => "Invalid Request"
  | .MethodNotFound => "Method not found"
  | .InvalidParams => "Invalid params"
  | .InternalError e => e
  | .ApplicationError _ m => m

/-- The serialized JSON-RPC error object: the `Serialize` impl of
crates/rpc/src/jsonrpc/error.rs emits exactly the pair code, message. -/
structure ErrorObject where
  code : Int
  message : String
deriving DecidableEq

/-- Embeds the `Serialize` impl for `RpcError` of crates/rpc/src/jsonrpc/error.rs. -/
def RpcError.serialize (e : RpcError) : ErrorObject :=
  { code := e.code, message := e.message }

/-- Embeds the blanket `impl From for RpcError` of crates/rpc/src/jsonrpc/error.rs,
applied after converting the value into the domain `RpcError`. -/
def RpcError.fromDomain (value : Error.RpcError) : RpcError :=
  match value with
  | .GatewayError x => .InternalError x
  | .Internal x => .InternalError x
  | other => .ApplicationError other.code other.display

end Jsonrpc

namespace Versioning

/-- Embeds Rust `str::starts_with` on character sequences: the pattern is a
prefix of the string. -/
def starts_with (s pattern : String) : Bool :=
  pattern.data.isPrefixOf s.data

/-- Embeds `prefix_method` of crates/rpc/src/versioning.rs: scan the pairs in
order; on the first pair whose old part prefixes the method name, set the name
to new part concatenated with the whole original name and stop. -/
def prefix_method (method : String) : List (String × String) → String
  | [] => method
  | (old, new) :: rest =>
      if starts_with method old then new ++ method else prefix_method method rest

/-- Rewrite pairs served for the paths "/", "/rpc/v0.2" and "/rpc/v0.2/"
(crates/rpc/src/versioning.rs, `RpcVersioningService::call`). -/
def v02_pairs : List (String × String) :=
  [("starknet_", "v0.2_"), ("pathfinder_", "v0.1_")]

/-- Rewrite pairs served for the paths "/rpc/v0.3" and "/rpc/v0.3/". -/
def v03_pairs : List (String × String) :=
  [("starknet_", "v0.3_")]

/-- Rewrite pairs served for the paths "/rpc/pathfinder/v0.1" and its
trailing-slash variant. -/
def pathfinder_pairs : List (String × String) :=
  [("pathfinder_", "v0.1_")]

/-- The three rewrite tables appearing in `RpcVersioningService::call`. -/
def configured_tables : List (List (String × String)) :=
  [v02_pairs, v03_pairs, pathfinder_pairs]

/-- Embeds the path match of `RpcVersioningService::call`
(crates/rpc/src/versioning.rs lines 107-121): recognized POST paths select a
rewrite table, any other path falls through to the 404 arm. -/
def path_pairs (path : String) : Option (List (String × String)) :=
  if path == "/" || path == "/rpc/v0.2" || path == "/rpc/v0.2/" then
    some v02_pairs
  else if path == "/rpc/v0.3" || path == "/rpc/v0.3/" then
    some v03_pairs
  else if path == "/rpc/pathfinder/v0.1" || path == "/rpc/pathfinder/v0.1/" then
    some pathfinder_pairs
  else
    none

/-- The recognized paths, listed for the statement of the dispatch theorem. -/
def recognized_paths : List String :=
  ["/", "/rpc/v0.2", "/rpc/v0.2/", "/rpc/v0.3", "/rpc/v0.3/",
   "/rpc/pathfinder/v0.1", "/rpc/pathfinder/v0.1/"]

/-- HTTP request methods, as compared against `Method::POST` in the source. -/
inductive HttpVerb
  | POST
  | GET
  | PUT
  | DELETE
  | HEAD
  | OPTIONS
  | PATCH
deriving DecidableEq

/-- An HTTP response as far as the middleware's own error responses are
observable: status code, content-type header and body. -/
structure HttpResponse where
  status : Nat
  contentType : String
  body : String
deriving DecidableEq

/-- Embeds `response::not_found` of crates/rpc/src/versioning.rs: 404 with a
text/plain body holding the status code's canonical reason. -/
def not_found : HttpResponse :=
  { status := 404, contentType := "text/plain", body := "Not Found" }

/-- The three ways `RpcVersioningService::call` can dispatch a request. -/
inductive CallDecision
  | notFound
  | rewritten (pairs : List (String × String))
  | forwarded
deriving DecidableEq

/-- Embeds the dispatch structure of `RpcVersioningService::call`
(crates/rpc/src/versioning.rs lines 103-172): a POST selects a rewrite table by
path or returns `response::not_found`; a non-POST computes no table and is
handed unchanged to the inner service via `call_inner`. -/
def call_decision (verb : HttpVerb) (path : String) : CallDecision :=
  if verb = .POST then
    match path_pairs path with
    | some pairs => .rewritten pairs
    | none => .notFound
  else
    .forwarded

end Versioning

namespace Router

/-- Modelled from the spec: the id of a parsed request (request.rs is not in
the sources) is absent, null, a number or a string; an absent id marks a
notification. -/
inductive RequestId
  | notification
  | null
  | num (n : Int)
  | str (s : String)
deriving DecidableEq

/-- Modelled from the spec: `is_notification` holds exactly when the id field
was absent. -/
def RequestId.is_notification : RequestId → Bool
  | .notification => true
  | _ => false

/-- Modelled from the spec: raw params (request.rs is not in the sources) are
absent, a positional list kept as raw bytes per element, or a named object
kept as raw bytes. -/
inductive RawParams
  | absent
  | positional (elems : List String)
  | named (raw : String)
deriving DecidableEq

/-- Modelled from the spec: `is_empty` holds when params is absent or an empty
positional list. -/
def RawParams.is_empty : RawParams → Bool
  | .absent => true
  | .positional [] => true
  | _ => false

/-- Modelled from the spec: a parsed `RpcRequest` carries a method name, an id
and raw params (the jsonrpc version field must have equalled "2.0" to parse). -/
structure RpcRequest where
  method : String
  id : RequestId
  params : RawParams

/-- A JSON value, the output type of `serde_json::to_value`. -/
inductive Json
  | null
  | bool (b : Bool)
  | num (n : Int)
  | str (s : String)
  | arr (elems : List Json)
  | obj (fields : List (String × Json))

/-- Modelled from the spec: a response envelope (response.rs is not in the
sources) carries exactly one of a result value or an error, plus the echoed id. -/
structure RpcResponse where
  output : Except Jsonrpc.RpcError Json
  id : RequestId

/-- Modelled from the spec: `RpcResponse::INVALID_REQUEST`, an InvalidRequest
error with id null (parse failures produce id null). -/
def RpcResponse.INVALID_REQUEST : RpcResponse :=
  { output := .error .InvalidRequest, id := .null }

/-- Modelled from the spec: `RpcResponse::PARSE_ERROR`, a ParseError with id
null. -/
def RpcResponse.PARSE_ERROR : RpcResponse :=
  { output := .error .ParseError, id := .null }

/-- Modelled from the spec: `RpcResponse::method_not_found`, a MethodNotFound
error echoing the request's id. -/
def RpcResponse.method_not_found (id : RequestId) : RpcResponse :=
  { output := .error .MethodNotFound, id := id }

/-- Outcome of awaiting a method adapter under `catch_unwind`
(crates/rpc/src/jsonrpc/router.rs line 90): either the adapter's future
completed with its result, or it unwound. -/
inductive InvokeOutcome
  | completed (r : Except Jsonrpc.RpcError Json)
  | panicked

/-- The frozen method table: a lookup from method name to the registered
adapter's invocation behaviour on the request's raw params. -/
abbrev MethodTable := String → Option (RawParams → InvokeOutcome)

/-- The raw text of one request element, abstracted to its parse outcome as an
`RpcRequest` (the `serde_json::from_str` call in `run_request`). -/
inductive RawElement
  | malformed
  | valid (r : RpcRequest)

/-- Embeds `RpcRouter::run_request` of crates/rpc/src/jsonrpc/router.rs lines
71-108: parse failure gives INVALID_REQUEST; a notification gives nothing; an
unknown method gives method_not_found with the id; otherwise the adapter is
invoked under panic isolation, an unwind becoming
`InternalError(anyhow("Internal error"))`, and the response carries the
outcome with the request's id. -/
def run_request (methods : MethodTable) (request : RawElement) : Option RpcResponse :=
  match request with
  | .malformed => some RpcResponse.INVALID_REQUEST
  | .valid req =>
      if req.id.is_notification then
        none
      else
        match methods req.method with
        | none => some (RpcResponse.method_not_found req.id)
        | some method =>
            let output : Except Jsonrpc.RpcError Json :=
              match method req.params with
              | .completed output => output
              | .panicked => .error (.InternalError "Internal error")
            some { output := output, id := req.id }

/-- Embeds the batch loop of `rpc_handler` (crates/rpc/src/jsonrpc/router.rs
lines 144-151): responses of non-notification elements collected in order. -/
def batch_responses (methods : MethodTable) (requests : List RawElement) : List RpcResponse :=
  requests.filterMap (run_request methods)

/-- The request's content type, as compared to `ContentType::json()`. -/
inductive ContentType
  | json
  | other (value : String)
deriving DecidableEq

/-- The HTTP body handed to `rpc_handler`: its raw text plus the outcomes of
the two serde parses the handler may attempt on it (single raw value, or
vector of raw values). -/
structure Body where
  text : String
  parse_single : Option RawElement
  parse_batch : Option (List RawElement)

/-- Embeds the batch test of `rpc_handler` (crates/rpc/src/jsonrpc/router.rs
line 126): the body is treated as a batch exactly when its first byte is the
opening bracket. -/
def treated_as_batch (body : String) : Bool :=
  body.data.head? == some '['

/-- What `rpc_handler` responds with, abstracting HTTP serialization. -/
inductive HandlerOut
  | unsupportedMediaType
  | single (r : RpcResponse)
  | emptyBody
  | arrayOf (rs : List RpcResponse)

/-- Embeds `rpc_handler` of crates/rpc/src/jsonrpc/router.rs lines 112-160:
content-type gate, first-byte batch test, parse-error and empty-batch
responses, notification elision, and assembly of single or array output. -/
def rpc_handler (content_type : ContentType) (methods : MethodTable) (body : Body) :
    HandlerOut :=
  if content_type ≠ .json then
    .unsupportedMediaType
  else if ¬ treated_as_batch body.text then
    match body.parse_single with
    | none => .single RpcResponse.PARSE_ERROR
    | some request =>
        match run_request methods request with
        | some response => .single response
        | none => .emptyBody
  else
    match body.parse_batch with
    | none => .single RpcResponse.PARSE_ERROR
    | some requests =>
        if requests.isEmpty then
          .single RpcResponse.INVALID_REQUEST
        else
          let responses := batch_responses methods requests
          if responses.isEmpty then .emptyBody else .arrayOf responses

/-- Shared tail of every adapter in the sealed module of
crates/rpc/src/jsonrpc/router.rs: map the user function's domain error through
the bridge, then serialize the output, any encode error becoming an
InternalError carrying the encoder's text. -/
def handle_output {Output E : Type} (toRpc : E → Jsonrpc.RpcError)
    (encode : Output → Except String Json) (r : Except E Output) :
    Except Jsonrpc.RpcError Json :=
  match r with
  | .error e => .error (toRpc e)
  | .ok output =>
      match encode output with
      | .ok v => .ok v
      | .error e => .error (.InternalError e)

/-- Embeds the context-only adapter of crates/rpc/src/jsonrpc/router.rs lines
324-331: non-empty params are rejected with InvalidParams before the user
function runs. -/
def invoke_context_only {Ctx Output E : Type} (f : Ctx → Except E Output)
    (toRpc : E → Jsonrpc.RpcError) (encode : Output → Except String Json)
    (state : Ctx) (input : RawParams) : Except Jsonrpc.RpcError Json :=
  if ¬ input.is_empty then
    .error .InvalidParams
  else
    handle_output toRpc encode (f state)

/-- Embeds the no-argument adapter of crates/rpc/src/jsonrpc/router.rs lines
365-371: non-empty params are rejected with InvalidParams before the user
function runs. -/
def invoke_no_args {Output E : Type} (f : Unit → Except E Output)
    (toRpc : E → Jsonrpc.RpcError) (encode : Output → Except String Json)
    (input : RawParams) : Except Jsonrpc.RpcError Json :=
  if ¬ input.is_empty then
    .error .InvalidParams
  else
    handle_output toRpc encode (f ())

/-- The spec's notion of a callable batch element: everything except a
well-formed notification produces a response (a malformed element produces an
InvalidRequest response and is counted as callable with id null). -/
def callable : RawElement → Bool
  | .malformed => true
  | .valid r => !r.id.is_notification

/-- The spec's words for batch detection: the first byte of the body that is
not JSON whitespace. Stated for comparison with `treated_as_batch`, which is
what the source computes. -/
def first_non_whitespace (body : String) : Option Char :=
  body.data.find? (fun c => !(c == ' ' || c == '\t' || c == '\n' || c == '\r'))

end Router

/-! Helper lemmas shared by the theorems below. -/

/-- A string whose head character differs from the pattern's head is not
started by that pattern. -/
theorem starts_with_eq_false (s p : String) (c d : Char) (cs ds : List Char)
    (hs : s.data = c :: cs) (hp : p.data = d :: ds) (hne : d ≠ c) :
    Versioning.starts_with s p = false := by
  unfold Versioning.starts_with
  rw [Bool.eq_false_iff]
  intro h
  rw [List.isPrefixOf_iff_prefix, hp, hs, List.cons_prefix_cons] at h
  exact hne h.1

/-- A name carrying one of the three version tags in front matches no old
part of any configured table: the tags start with the letter v while the old
parts start with s or p. -/
theorem prefixed_name_unchanged (tag m : String)
    (htag : tag ∈ ["v0.2_", "v0.3_", "v0.1_"]) (u : List (String × String))
    (hu : u ∈ Versioning.configured_tables) :
    Versioning.prefix_method (tag ++ m) u = tag ++ m := by
  have hhead : ∃ cs, (tag ++ m).data = 'v' :: cs := by
    fin_cases htag <;> exact ⟨_, by rw [String.data_append]; rfl⟩
  obtain ⟨cs, hcs⟩ := hhead
  have h1 := starts_with_eq_false (tag ++ m) "starknet_" 'v' 's' cs _ hcs rfl (by decide)
  have h2 := starts_with_eq_false (tag ++ m) "pathfinder_" 'v' 'p' cs _ hcs rfl (by decide)
  fin_cases hu <;>
    simp [Versioning.v02_pairs, Versioning.v03_pairs, Versioning.pathfinder_pairs,
      Versioning.prefix_method, h1, h2]

/-- A request element produces a response exactly when it is callable. -/
theorem run_request_isSome (methods : Router.MethodTable) (e : Router.RawElement) :
    (Router.run_request methods e).isSome = Router.callable e := by
  cases e with
  | malformed => rfl
  | valid r =>
      simp only [Router.run_request, Router.callable]
      cases hnot : r.id.is_notification with
      | true => simp
      | false => cases hm : methods r.method <;> simp

/-! Claim theorems. -/

/-- C1, counterexample: the domain catch-all error with text "database
unavailable" converts to an InternalError whose serialized message is that
very text, not the generic "Internal error" the claim requires. -/
theorem internal_error_message_counterexample :
    (Jsonrpc.RpcError.fromDomain (.Internal "database unavailable")).serialize =
      { code := -32603, message := "database unavailable" } ∧
    (Jsonrpc.RpcError.fromDomain (.Internal "database unavailable")).serialize.message ≠
      "Internal error" := by
  exact ⟨rfl, by decide⟩

/-- C1, amended: gateway and internal domain errors convert to InternalError
with serialized code -32603, but the serialized message field is the
underlying error's own display text, not the generic "Internal error". -/
theorem gateway_internal_collapse (g i : String) :
    Jsonrpc.RpcError.fromDomain (.GatewayError g) = .InternalError g ∧
    Jsonrpc.RpcError.fromDomain (.Internal i) = .InternalError i ∧
    (Jsonrpc.RpcError.fromDomain (.GatewayError g)).serialize =
      { code := -32603, message := g } ∧
    (Jsonrpc.RpcError.fromDomain (.Internal i)).serialize =
      { code := -32603, message := i } :=
  ⟨rfl, rfl, rfl, rfl⟩

/-- C2, counterexample: a GET to the recognized path "/" is forwarded to the
inner service, not answered with 404 as the claim requires for every non-POST
request. -/
theorem non_post_forwarded_counterexample :
    Versioning.call_decision .GET "/" = .forwarded ∧
    Versioning.CallDecision.forwarded ≠ Versioning.CallDecision.notFound := by
  exact ⟨rfl, by decide⟩

/-- C2, amended: a POST is answered with the 404 response (text/plain body
holding the canonical reason "Not Found", never forwarded) exactly when its
path is outside the recognized set; a request whose method is not POST is
forwarded unchanged to the inner service. -/
theorem versioning_dispatch (verb : Versioning.HttpVerb) (path : String) :
    (Versioning.call_decision .POST path = .notFound ↔
      path ∉ Versioning.recognized_paths) ∧
    (verb ≠ .POST → Versioning.call_decision verb path = .forwarded) ∧
    Versioning.not_found.status = 404 ∧
    Versioning.not_found.contentType = "text/plain" ∧
    Versioning.not_found.body = "Not Found" := by
  refine ⟨?_, fun h => ?_, rfl, rfl, rfl⟩
  · unfold Versioning.call_decision Versioning.path_pairs
    simp only [reduceIte]
    split_ifs with h1 h2 h3 <;>
      simp_all [Versioning.recognized_paths] <;> tauto
  · simp [Versioning.call_decision, h]

/-- C2 witness: at the concrete non-POST verb GET and path "/" the dispatch
forwards, and POST to the unrecognized path "/foo" yields the 404 arm. -/
theorem versioning_dispatch_witness :
    Versioning.call_decision .GET "/" = .forwarded ∧
    Versioning.call_decision .POST "/foo" = .notFound := by
  refine ⟨(versioning_dispatch .GET "/").2.1 (by decide), ?_⟩
  exact (versioning_dispatch .POST "/foo").1.mpr (by decide)

/-- C3, counterexample: for the body " [1]" (a batch payload preceded by a
space) the first non-whitespace byte is the bracket, yet the handler does not
treat it as a batch: it runs the single-request path and answers with one
top-level InvalidRequest object instead of an array. -/
theorem batch_detection_counterexample :
    Router.first_non_whitespace " [1]" = some '[' ∧
    Router.treated_as_batch " [1]" = false ∧
    Router.rpc_handler .json (fun _ => none) ⟨" [1]", some .malformed, some [.malformed]⟩ =
      .single Router.RpcResponse.INVALID_REQUEST := by
  exact ⟨by decide, by decide, rfl⟩

/-- C3, amended: the handler classifies the body as a batch exactly when its
very first byte is the bracket; whenever the first byte is not the bracket the
request is processed on the single-request path, so the outcome does not
depend on how the body would parse as a batch. -/
theorem batch_detection (body : String) (ct : Router.ContentType)
    (methods : Router.MethodTable) (ps : Option Router.RawElement)
    (pb qb : Option (List Router.RawElement)) :
    (Router.treated_as_batch body = true ↔ body.data.head? = some '[') ∧
    (body.data.head? ≠ some '[' →
      Router.rpc_handler ct methods ⟨body, ps, pb⟩ =
        Router.rpc_handler ct methods ⟨body, ps, qb⟩) := by
  constructor
  · simp [Router.treated_as_batch]
  · intro h
    have hb : Router.treated_as_batch body = false := by
      simp [Router.treated_as_batch, h]
    simp [Router.rpc_handler, hb]

/-- C3 witness: for the concrete body "1" (first byte not a bracket) the
handler's outcome is the same whatever the batch parse would have been. -/
theorem batch_detection_witness :
    Router.rpc_handler .json (fun _ => none) ⟨"1", some .malformed, none⟩ =
      Router.rpc_handler .json (fun _ => none) ⟨"1", some .malformed, some []⟩ :=
  (batch_detection "1" .json (fun _ => none) (some .malformed) none (some [])).2 (by decide)

/-- C8: the body "[]" parses to an empty batch, and the handler answers with a
single top-level InvalidRequest response whose id is JSON null and whose error
code is -32600, not an array of responses. -/
theorem empty_batch_single_invalid_request (methods : Router.MethodTable)
    (ps : Option Router.RawElement) :
    Router.rpc_handler .json methods ⟨"[]", ps, some []⟩ =
      .single Router.RpcResponse.INVALID_REQUEST ∧
    Router.RpcResponse.INVALID_REQUEST.id = .null ∧
    Router.RpcResponse.INVALID_REQUEST.output = .error .InvalidRequest ∧
    Jsonrpc.RpcError.code .InvalidRequest = -32600 :=
  ⟨rfl, rfl, rfl, rfl⟩

/-- C10: the domain code mapping sends the distinct errors TxnHashNotFoundV03
and InvalidTxnHash both to the stable code 25, so it is not injective. -/
theorem domain_code_collision :
    Error.RpcError.code .TxnHashNotFoundV03 = 25 ∧
    Error.RpcError.code .InvalidTxnHash = 25 ∧
    Error.RpcError.TxnHashNotFoundV03 ≠ Error.RpcError.InvalidTxnHash ∧
    ¬ Function.Injective Error.RpcError.code := by
  refine ⟨rfl, rfl, by decide, fun h => ?_⟩
  have heq : Error.RpcError.TxnHashNotFoundV03 = Error.RpcError.InvalidTxnHash :=
    h (show Error.RpcError.code .TxnHashNotFoundV03 =
          Error.RpcError.code .InvalidTxnHash from rfl)
  exact absurd heq (by decide)

/-- C4: a callable request whose registered adapter unwinds yields exactly one
response, an InternalError whose message is "Internal error", carrying the
request's id; the router returns normally (the panic is absorbed into that
response); and in any batch the surrounding elements are answered exactly as
they would be without the panicking element. -/
theorem panic_contained (methods : Router.MethodTable) (req : Router.RpcRequest)
    (m : Router.RawParams → Router.InvokeOutcome)
    (hnotif : req.id.is_notification = false)
    (hfound : methods req.method = some m)
    (hpanic : m req.params = .panicked) :
    Router.run_request methods (.valid req) =
      some { output := .error (.InternalError "Internal error"), id := req.id } ∧
    Jsonrpc.RpcError.message (.InternalError "Internal error") = "Internal error" ∧
    Jsonrpc.RpcError.code (.InternalError "Internal error") = -32603 ∧
    ∀ before after : List Router.RawElement,
      Router.batch_responses methods (before ++ .valid req :: after) =
        Router.batch_responses methods before ++
          { output := .error (.InternalError "Internal error"), id := req.id } ::
            Router.batch_responses methods after := by
  have h1 : Router.run_request methods (.valid req) =
      some { output := .error (.InternalError "Internal error"), id := req.id } := by
    simp [Router.run_request, hnotif, hfound, hpanic]
  refine ⟨h1, rfl, rfl, fun before after => ?_⟩
  simp [Router.batch_responses, List.filterMap_append, List.filterMap_cons, h1]

/-- C4 witness: a concrete table where method "panic" unwinds; the request
with id 1 gets the InternalError response, and in a two-element batch the
sibling request is answered normally. -/
theorem panic_contained_witness :
    Router.run_request
        (fun n => if n = "panic" then some (fun _ => Router.InvokeOutcome.panicked) else none)
        (.valid { method := "panic", id := .num 1, params := .absent }) =
      some { output := .error (.InternalError "Internal error"), id := .num 1 } ∧
    Router.batch_responses
        (fun n => if n = "panic" then some (fun _ => Router.InvokeOutcome.panicked) else none)
        [.valid { method := "panic", id := .num 1, params := .absent },
         .valid { method := "other", id := .num 2, params := .absent }] =
      [{ output := .error (.InternalError "Internal error"), id := .num 1 },
       Router.RpcResponse.method_not_found (.num 2)] := by
  have h := panic_contained
    (fun n => if n = "panic" then some (fun _ => Router.InvokeOutcome.panicked) else none)
    { method := "panic", id := .num 1, params := .absent }
    (fun _ => Router.InvokeOutcome.panicked) rfl rfl rfl
  refine ⟨h.1, ?_⟩
  have hb := h.2.2.2 [] [.valid { method := "other", id := .num 2, params := .absent }]
  simpa [Router.batch_responses, Router.run_request] using hb

/-- C5: the batch response list is exactly the in-order image of the callable
elements (each contributing the unique response `run_request` gives it), and
its length equals the number of callable elements; notification elements
contribute nothing. -/
theorem batch_order (methods : Router.MethodTable) (requests : List Router.RawElement) :
    Router.batch_responses methods requests =
      (requests.filter Router.callable).map
        (fun e => (Router.run_request methods e).getD Router.RpcResponse.INVALID_REQUEST) ∧
    (Router.batch_responses methods requests).length =
      (requests.filter Router.callable).length ∧
    ∀ r : Router.RpcRequest, r.id.is_notification = true →
      Router.run_request methods (.valid r) = none := by
  have key : Router.batch_responses methods requests =
      (requests.filter Router.callable).map
        (fun e => (Router.run_request methods e).getD Router.RpcResponse.INVALID_REQUEST) := by
    induction requests with
    | nil => rfl
    | cons e rest ih =>
        have hs := run_request_isSome methods e
        simp only [Router.batch_responses] at ih
        cases hc : Router.callable e with
        | true =>
            rw [hc] at hs
            obtain ⟨r, hr⟩ := Option.isSome_iff_exists.mp hs
            simp [Router.batch_responses, List.filterMap_cons, List.filter_cons, hc, hr, ih]
        | false =>
            rw [hc] at hs
            have hn : Router.run_request methods e = none := by
              cases h : Router.run_request methods e with
              | none => rfl
              | some r => rw [h] at hs; simp at hs
            simp [Router.batch_responses, List.filterMap_cons, List.filter_cons, hc, hn, ih]
  refine ⟨key, by rw [key]; simp, fun r hr => ?_⟩
  simp [Router.run_request, hr]

/-- C5 witness: a concrete notification element produces no response. -/
theorem batch_order_witness :
    Router.run_request (fun _ => none)
        (.valid { method := "m", id := .notification, params := .absent }) = none :=
  (batch_order (fun _ => none) []).2.2
    { method := "m", id := .notification, params := .absent } rfl

/-- C6: for every method name and rewrite table, `prefix_method` returns the
name rewritten by the first pair whose old part starts the name (the new part
prepended in front of the whole original name, old part retained), or the name
unchanged when no pair matches; no later pair is ever applied. -/
theorem rewrite_first_match (method : String) (table : List (String × String)) :
    Versioning.prefix_method method table =
      (match table.find? (fun p => Versioning.starts_with method p.1) with
       | some (_, new) => new ++ method
       | none => method) ∧
    ∀ old new, table.find? (fun p => Versioning.starts_with method p.1) = some (old, new) →
      Versioning.starts_with method old = true ∧
      Versioning.prefix_method method table = new ++ method := by
  have key : Versioning.prefix_method method table =
      (match table.find? (fun p => Versioning.starts_with method p.1) with
       | some (_, new) => new ++ method
       | none => method) := by
    induction table with
    | nil => rfl
    | cons head rest ih =>
        obtain ⟨old, new⟩ := head
        cases hsw : Versioning.starts_with method old with
        | true => simp [Versioning.prefix_method, hsw, List.find?_cons_of_pos]
        | false => simpa [Versioning.prefix_method, hsw, List.find?_cons_of_neg] using ih
  refine ⟨key, fun old new hf => ?_⟩
  have hp := List.find?_some hf
  refine ⟨by simpa using hp, ?_⟩
  rw [key, hf]

/-- C6 witness: at the concrete name "starknet_chainId" and the default
table, the first pair matches and the rewrite prepends "v0.2_". -/
theorem rewrite_first_match_witness :
    Versioning.starts_with "starknet_chainId" "starknet_" = true ∧
    Versioning.prefix_method "starknet_chainId" Versioning.v02_pairs =
      "v0.2_" ++ "starknet_chainId" :=
  (rewrite_first_match "starknet_chainId" Versioning.v02_pairs).2
    "starknet_" "v0.2_" (by decide)

/-- C7, counterexample: the name "pathfinder_getProof" is the result of one
application of the rewrite under the /rpc/v0.3 table (which leaves it
unchanged), yet a second application under the default table rewrites it to
"v0.1_pathfinder_getProof", so re-application under another configured table
is not always a no-op. -/
theorem rewrite_idempotence_counterexample :
    Versioning.v03_pairs ∈ Versioning.configured_tables ∧
    Versioning.v02_pairs ∈ Versioning.configured_tables ∧
    Versioning.prefix_method "pathfinder_getProof" Versioning.v03_pairs =
      "pathfinder_getProof" ∧
    Versioning.prefix_method
        (Versioning.prefix_method "pathfinder_getProof" Versioning.v03_pairs)
        Versioning.v02_pairs = "v0.1_pathfinder_getProof" ∧
    "v0.1_pathfinder_getProof" ≠ "pathfinder_getProof" := by decide

/-- C7, amended: re-applying the rewrite under the same configured table is
always a no-op; and a name that the first application actually changed (i.e. a
prefixed name) is left unchanged by a second application under any configured
table, because no old part matches a rewritten name. Only a name that passed
through the first table unmatched can still be rewritten by a different table. -/
theorem rewrite_idempotent (t u : List (String × String)) (m : String)
    (ht : t ∈ Versioning.configured_tables) (hu : u ∈ Versioning.configured_tables) :
    (Versioning.prefix_method m t ≠ m →
      Versioning.prefix_method (Versioning.prefix_method m t) u =
        Versioning.prefix_method m t) ∧
    Versioning.prefix_method (Versioning.prefix_method m t) t =
      Versioning.prefix_method m t := by
  have key : ∀ v ∈ Versioning.configured_tables, Versioning.prefix_method m t ≠ m →
      Versioning.prefix_method (Versioning.prefix_method m t) v =
        Versioning.prefix_method m t := by
    intro v hv hchanged
    fin_cases ht
    · cases h1 : Versioning.starts_with m "starknet_" with
      | true =>
          have e1 : Versioning.prefix_method m Versioning.v02_pairs = "v0.2_" ++ m := by
            simp [Versioning.v02_pairs, Versioning.prefix_method, h1]
          rw [e1]
          exact prefixed_name_unchanged "v0.2_" m (by decide) v hv
      | false =>
          cases h2 : Versioning.starts_with m "pathfinder_" with
          | true =>
              have e1 : Versioning.prefix_method m Versioning.v02_pairs = "v0.1_" ++ m := by
                simp [Versioning.v02_pairs, Versioning.prefix_method, h1, h2]
              rw [e1]
              exact prefixed_name_unchanged "v0.1_" m (by decide) v hv
          | false =>
              exact absurd
                (by simp [Versioning.v02_pairs, Versioning.prefix_method, h1, h2]) hchanged
    · cases h1 : Versioning.starts_with m "starknet_" with
      | true =>
          have e1 : Versioning.prefix_method m Versioning.v03_pairs = "v0.3_" ++ m := by
            simp [Versioning.v03_pairs, Versioning.prefix_method, h1]
          rw [e1]
          exact prefixed_name_unchanged "v0.3_" m (by decide) v hv
      | false =>
          exact absurd
            (by simp [Versioning.v03_pairs, Versioning.prefix_method, h1]) hchanged
    · cases h1 : Versioning.starts_with m "pathfinder_" with
      | true =>
          have e1 : Versioning.prefix_method m Versioning.pathfinder_pairs = "v0.1_" ++ m := by
            simp [Versioning.pathfinder_pairs, Versioning.prefix_method, h1]
          rw [e1]
          exact prefixed_name_unchanged "v0.1_" m (by decide) v hv
      | false =>
          exact absurd
            (by simp [Versioning.pathfinder_pairs, Versioning.prefix_method, h1]) hchanged
  refine ⟨key u hu, ?_⟩
  by_cases hc : Versioning.prefix_method m t = m
  · rw [hc]; exact hc
  · exact key t ht hc

/-- C7 witness: at the concrete name "starknet_chainId" and the /rpc/v0.3
table (a changed first application), a second application under the default
table and under the same table are both no-ops. -/
theorem rewrite_idempotent_witness :
    Versioning.prefix_method
        (Versioning.prefix_method "starknet_chainId" Versioning.v03_pairs)
        Versioning.v02_pairs =
      Versioning.prefix_method "starknet_chainId" Versioning.v03_pairs ∧
    Versioning.prefix_method
        (Versioning.prefix_method "starknet_chainId" Versioning.v03_pairs)
        Versioning.v03_pairs =
      Versioning.prefix_method "starknet_chainId" Versioning.v03_pairs := by
  refine ⟨(rewrite_idempotent Versioning.v03_pairs Versioning.v02_pairs "starknet_chainId"
    (by decide) (by decide)).1 (by decide), ?_⟩
  exact (rewrite_idempotent Versioning.v03_pairs Versioning.v03_pairs "starknet_chainId"
    (by decide) (by decide)).2

/-- C9: both no-input adapters reject any non-empty params with InvalidParams
before the user function runs, and on absent params or an empty positional
list they call the user function and return its processed output; `is_empty`
holds exactly for absent params or an empty positional list. -/
theorem no_input_adapters (Ctx Output E : Type) (f : Ctx → Except E Output)
    (g : Unit → Except E Output) (toRpc : E → Jsonrpc.RpcError)
    (encode : Output → Except String Router.Json) (state : Ctx)
    (input : Router.RawParams) :
    (input.is_empty = false →
      Router.invoke_context_only f toRpc encode state input = .error .InvalidParams ∧
      Router.invoke_no_args g toRpc encode input = .error .InvalidParams) ∧
    (input.is_empty = true →
      Router.invoke_context_only f toRpc encode state input =
        Router.handle_output toRpc encode (f state) ∧
      Router.invoke_no_args g toRpc encode input =
        Router.handle_output toRpc encode (g ())) ∧
    (input.is_empty = true ↔ input = .absent ∨ input = .positional []) := by
  refine ⟨fun h => ?_, fun h => ?_, ?_⟩
  · constructor <;> simp [Router.invoke_context_only, Router.invoke_no_args, h]
  · constructor <;> simp [Router.invoke_context_only, Router.invoke_no_args, h]
  · cases input with
    | absent => simp [Router.RawParams.is_empty]
    | positional elems => cases elems <;> simp [Router.RawParams.is_empty]
    | named raw => simp [Router.RawParams.is_empty]

/-- C9 witness: a concrete no-input user function is rejected with
InvalidParams on a one-element positional list, and runs (returning its
output) on absent params. -/
theorem no_input_adapters_witness :
    Router.invoke_context_only (fun _ : Unit => Except.ok Router.Json.null)
        (fun e : Jsonrpc.RpcError => e) Except.ok () (.positional ["23"]) =
      .error .InvalidParams ∧
    Router.invoke_no_args (fun _ => Except.ok Router.Json.null)
        (fun e : Jsonrpc.RpcError => e) Except.ok .absent = .ok Router.Json.null := by
  constructor
  · exact ((no_input_adapters Unit Router.Json Jsonrpc.RpcError
      (fun _ => Except.ok Router.Json.null) (fun _ => Except.ok Router.Json.null)
      (fun e => e) Except.ok () (.positional ["23"])).1 (by decide)).1
  · have h := ((no_input_adapters Unit Router.Json Jsonrpc.RpcError
      (fun _ => Except.ok Router.Json.null) (fun _ => Except.ok Router.Json.null)
      (fun e => e) Except.ok () .absent).2.1 (by decide)).2
    simpa [Router.handle_output] using h

end Pathfinder
